import Mathlib

/-!
Verification of the tenant_service repository (FastAPI + SQLAlchemy + Motor).

Shallow embedding of the parts of the code the claims are about:

* `src/app/services/usage_service.py`   — `UsageService.get_monthly_summary`,
  `UsageService.get_combined_daily_usage` (dual-store aggregation engine);
* `src/app/services/mongodb_service.py` — `get_data_for_date_range`,
  `aggregate_monthly_data` (event-store access);
* `src/app/services/tenant_service.py`  — `check_duplicate`, `register_tenant`,
  `delete_tenant_internal`, `get_tenant_by_alias_or_name`;
* `src/main.py`                         — the tenant endpoints and the set of
  routers mounted on the app;
* `src/app/routers/aggregation_router.py` — `get_real_time_monthly_aggregation`;
* `src/app/schemas/ai_reply.py`         — `AIReply` and its `created_at` default.

Conventions of the embedding:

* Instants are `Int` seconds on the timeline `86400 * toOrdinal y m d + sec`,
  mirroring CPython's `datetime` (proleptic Gregorian; `toOrdinal 1 1 1 = 1`,
  exactly `date.toordinal`).  `timedelta(seconds=1)` is `1`,
  `timedelta(minutes=k)` is `60 * k`.
* Python `float` prices are modelled as exact rationals `ℚ`; token counts as
  `Int`.  IEEE rounding is abstracted away: every claim here is about which
  formula is computed, not about rounding error.
* SQL `SUM` over an empty set yields NULL: modelled as `Option`.
* Python exceptions are `Except`; a MongoDB document is a record whose key
  access goes through an explicit string-keyed lookup, so that a `KeyError`
  on a missing key is representable.
-/

/-! ## Calendar arithmetic (CPython `datetime` internals)

Faithful to CPython's `datetime` module: `_is_leap`, `_DAYS_IN_MONTH`,
`_DAYS_BEFORE_MONTH`, `_days_before_year`, `date.toordinal`.
-/

/-- CPython `_is_leap(year)`: `year % 4 == 0 and (year % 100 != 0 or year % 400 == 0)`. -/
def isLeap (y : Nat) : Bool :=
  y % 4 == 0 && (y % 100 != 0 || y % 400 == 0)

/-- CPython `_DAYS_IN_MONTH` (index 0 is a dummy; Python uses -1, never read). -/
def daysInMonthTable : List Nat :=
  [0, 31, 28, 31, 30, 31, 30, 31, 31, 30, 31, 30, 31]

/-- CPython `_days_in_month(year, month)`. -/
def daysInMonth (y m : Nat) : Nat :=
  if m == 2 && isLeap y then 29 else daysInMonthTable.getD m 0

/-- CPython `_DAYS_BEFORE_MONTH` (index 0 is a dummy; Python uses -1, never read). -/
def daysBeforeMonthTable : List Nat :=
  [0, 0, 31, 59, 90, 120, 151, 181, 212, 243, 273, 304, 334]

/-- CPython `_days_before_month(year, month)`. -/
def daysBeforeMonth (y m : Nat) : Nat :=
  daysBeforeMonthTable.getD m 0 + (if m > 2 && isLeap y then 1 else 0)

/-- CPython `_days_before_year(year)` = days before January 1st of `year`. -/
def daysBeforeYear (y : Nat) : Nat :=
  365 * (y - 1) + (y - 1) / 4 - (y - 1) / 100 + (y - 1) / 400

/-- CPython `date(y, m, d).toordinal()`; `toOrdinal 1 1 1 = 1`. -/
def toOrdinal (y m d : Nat) : Nat :=
  daysBeforeYear y + daysBeforeMonth y m + d

/-- The instant `datetime(y, m, d, tzinfo=timezone.utc)` on the seconds
timeline (midnight of the given civil date). -/
def datetimeUTC (y m d : Nat) : Int :=
  86400 * (toOrdinal y m d : Int)

/-! ## Data model -/

/-- `app/schemas/ai_reply.py` `TokenInfo`: one token category of a usage event. -/
structure TokenInfo where
  count : Int
  price_per_token : ℚ
deriving DecidableEq, Repr

/-- A document stored in a tenant's `{tenant_id}_replies` MongoDB collection:
the `model_dump()` of `app/schemas/ai_reply.py` `AIReply`. -/
structure UsageEvent where
  receiver : String
  user_query : String
  ai_reply : String
  tokens : List (String × TokenInfo)
  total_tokens : Int
  customer_feedback : Option Bool
  tenant_id : String
  created_at : Int
deriving DecidableEq, Repr

/-- A row of the `tenant_usages` table (`app/models/central_usage.py`
`CentralUsage`). -/
structure LedgerRow where
  id : Nat
  date : Int
  tenant_id : String
  tokens_used : Int
  per_token_price : ℚ
  total_price : ℚ
deriving DecidableEq, Repr

/-- A row of the `tenants` table (`app/models/tenant.py` `Tenant`). -/
structure Tenant where
  id : Nat
  tenant_id : String
  logo : Option String
  name : String
  «alias» : String
  active_state : Bool
deriving DecidableEq, Repr

/-- `app/schemas/usage.py` `MonthlySummary`. -/
structure MonthlySummary where
  tenant_id : String
  year : Nat
  month : Nat
  total_tokens_used : Int
  total_price : ℚ
deriving DecidableEq, Repr

/-- `app/schemas/usage.py` `DailySummary` (one bucket of the daily series).
`date` is kept as the Python `date.toordinal()` value of the bucket;
the `strftime("%Y-%m-%d")` rendering is not modelled. -/
structure DailySummary where
  date : Int
  tokens_used : Int
  total_price : ℚ
deriving DecidableEq, Repr

/-- `app/schemas/aggregation.py` `MonthlyAggregation`. -/
structure MonthlyAggregation where
  tenant_id : String
  year : Nat
  month : Nat
  total_tokens_used_mysql : Int
  total_price_mysql : ℚ
  total_tokens_used_mongodb : Int
  total_price_mongodb : ℚ
  combined_total_tokens : Int
  combined_total_price : ℚ
deriving DecidableEq, Repr

/-- Detail payload of a FastAPI `HTTPException`: either a plain string or the
`{"error_code": ..., "message": ...}` dict used by the tenant endpoints. -/
inductive Detail where
  | text : String → Detail
  | coded : (error_code : String) → (message : String) → Detail
deriving DecidableEq, Repr

/-- `fastapi.HTTPException` as raised by the routes. -/
structure HTTPException where
  status_code : Nat
  detail : Detail
deriving DecidableEq, Repr

/-- Python-level errors escaping the usage-service computations. -/
inductive PyError where
  | keyError : String → PyError
  | sqlAlchemyError : PyError
deriving DecidableEq, Repr

/-! ## Event-store access (`app/services/mongodb_service.py`) -/

/-- The shape of a record returned by `MongoDBService.get_data_for_date_range`:
the `find` projection `{"created_at": 1, "total_tokens": 1, "tokens": 1}`
keeps exactly these keys (plus `_id`, which no caller reads). -/
structure ProjectedRecord where
  created_at : Int
  total_tokens : Int
  tokens : List (String × TokenInfo)
deriving DecidableEq, Repr

/-- A value held under a key of a projected MongoDB record. -/
inductive MongoVal where
  | int : Int → MongoVal
  | num : ℚ → MongoVal
  | map : List (String × TokenInfo) → MongoVal
deriving DecidableEq, Repr

/-- Python dict access `record[key]` on a projected record; `none` models the
key being absent (a `KeyError` at the access site). -/
def ProjectedRecord.get? (r : ProjectedRecord) (key : String) : Option MongoVal :=
  if key == "created_at" then some (.int r.created_at)
  else if key == "total_tokens" then some (.int r.total_tokens)
  else if key == "tokens" then some (.map r.tokens)
  else none

/-- `MongoDBService.get_data_for_date_range(tenant_id, start_date, end_date)`:
`find` on the tenant's collection with filter
`created_at >= start_date  and  created_at < end_date` and the projection
above.  `docs` is the content of the tenant's `{tenant_id}_replies`
collection (collections are per tenant, so no tenant filter appears). -/
def get_data_for_date_range (docs : List UsageEvent) (start_date end_date : Int) :
    List ProjectedRecord :=
  (docs.filter fun d => decide (start_date ≤ d.created_at) && decide (d.created_at < end_date)).map
    fun d => ⟨d.created_at, d.total_tokens, d.tokens⟩

/-- The `document_total_price` computed inside the aggregation pipelines of
`mongodb_service.py` (`$reduce` over `$objectToArray "$tokens"`, summing
`count * price_per_token` per category). -/
def documentTotalPrice (tokens : List (String × TokenInfo)) : ℚ :=
  (tokens.map fun kv => (kv.2.count : ℚ) * kv.2.price_per_token).foldl (· + ·) 0

/-- The `$group` stage of the `aggregate_monthly_data` pipeline plus the
empty-result fallback: sums `total_tokens` and the per-category
`document_total_price` over the matched documents, and returns `(0, 0.0)`
when the pipeline yields no group. -/
def aggregateResult (matched : List UsageEvent) : Int × ℚ :=
  if matched.isEmpty then (0, 0)
  else ((matched.map (·.total_tokens)).sum,
        (matched.map fun d => documentTotalPrice d.tokens).sum)

/-- `MongoDBService.aggregate_monthly_data(tenant_id, year, month)`:
matches `created_at` in `[datetime(y,m,1), next_month_start)` — December
rolling into January of `y + 1` — then groups as in `aggregateResult`. -/
def aggregate_monthly_data (docs : List UsageEvent) (y m : Nat) : Int × ℚ :=
  aggregateResult (docs.filter fun d =>
    decide (datetimeUTC y m 1 ≤ d.created_at) &&
    decide (d.created_at < if m = 12 then datetimeUTC (y + 1) 1 1 else datetimeUTC y (m + 1) 1))

/-! ## Aggregation engine (`app/services/usage_service.py`) -/

/-- Window start of `UsageService.get_monthly_summary` (line 46):
`datetime(year, month, 1, tzinfo=utc) - timedelta(minutes=offset)`. -/
def monthlySummaryStart (y m : Nat) (tz : Int) : Int :=
  datetimeUTC y m 1 - 60 * tz

/-- Window end of `UsageService.get_monthly_summary` (lines 47-52):
December rolls over to January of `year + 1`; one second is subtracted to
make the boundary inclusive; then the timezone shift is applied. -/
def monthlySummaryEnd (y m : Nat) (tz : Int) : Int :=
  if m = 12 then datetimeUTC (y + 1) 1 1 - 1 - 60 * tz
  else datetimeUTC y (m + 1) 1 - 1 - 60 * tz

/-- Window start of `UsageService.get_combined_daily_usage` (line 93);
embedded separately from its own source lines. -/
def dailyUsageStart (y m : Nat) (tz : Int) : Int :=
  datetimeUTC y m 1 - 60 * tz

/-- Window end of `UsageService.get_combined_daily_usage` (lines 94-99);
embedded separately from its own source lines. -/
def dailyUsageEnd (y m : Nat) (tz : Int) : Int :=
  if m = 12 then datetimeUTC (y + 1) 1 1 - 1 - 60 * tz
  else datetimeUTC y (m + 1) 1 - 1 - 60 * tz

/-- The WHERE clause shared by the two MySQL queries:
`tenant_id == tid AND date >= s AND date <= e`. -/
def ledgerRowsInWindow (ledger : List LedgerRow) (tid : String) (s e : Int) :
    List LedgerRow :=
  ledger.filter fun r => r.tenant_id == tid && decide (s ≤ r.date) && decide (r.date ≤ e)

/-- SQL `SUM(tokens_used)`: NULL (`none`) on an empty row set. -/
def sqlSumTokens (rows : List LedgerRow) : Option Int :=
  if rows.isEmpty then none else some (rows.map (·.tokens_used)).sum

/-- SQL `SUM(total_price)`: NULL (`none`) on an empty row set. -/
def sqlSumPrice (rows : List LedgerRow) : Option ℚ :=
  if rows.isEmpty then none else some (rows.map (·.total_price)).sum

/-- The generator expression of line 76 of `usage_service.py`:
`record['total_tokens'] * record['per_token_price'] for record in mongo_records`.
The `record['per_token_price']` access is kept as the dict lookup it is in
the source; it fails on the first record, as Python's `KeyError` would. -/
def pricesOfRecords : List ProjectedRecord → Except PyError (List ℚ)
  | [] => .ok []
  | r :: rs =>
    match r.get? "per_token_price" with
    | some (.num p) =>
        (pricesOfRecords rs).map fun rest => (r.total_tokens : ℚ) * p :: rest
    | _ => .error (PyError.keyError "per_token_price")

/-- Body of `UsageService.get_monthly_summary` after both stores were queried
(lines 66-85): `total_tokens or 0`, `total_price or 0.0`, then
`total_tokens += sum(record['total_tokens'] ...)` and the price sum above. -/
def summaryOfRecords (tid : String) (y m : Nat) (rows : List LedgerRow)
    (recs : List ProjectedRecord) : Except PyError MonthlySummary := do
  let total_tokens0 := (sqlSumTokens rows).getD 0
  let total_price0 := (sqlSumPrice rows).getD 0
  let total_tokens := total_tokens0 + (recs.map (·.total_tokens)).sum
  let prices ← pricesOfRecords recs
  Except.ok ⟨tid, y, m, total_tokens, total_price0 + prices.sum⟩

/-- `UsageService.get_monthly_summary(db, year, month, timezone_offset_minutes)`.
`ledger` is the whole `tenant_usages` table, `docs` the tenant's event-store
collection. -/
def get_monthly_summary (tid : String) (ledger : List LedgerRow)
    (docs : List UsageEvent) (y m : Nat) (tz : Int) : Except PyError MonthlySummary :=
  summaryOfRecords tid y m
    (ledgerRowsInWindow ledger tid (monthlySummaryStart y m tz) (monthlySummaryEnd y m tz))
    (get_data_for_date_range docs (monthlySummaryStart y m tz) (monthlySummaryEnd y m tz))

/-- One `all_records` entry of `get_combined_daily_usage`:
`(date, tokens_used, total_price)`. -/
def DailyRec : Type := Int × Int × ℚ

/-- `daily_data[adjusted_date] += ...` on the insertion-ordered bucket list
(Python `defaultdict` keyed by `date`). -/
def addToBucket : List (Int × Int × ℚ) → Int → Int → ℚ → List (Int × Int × ℚ)
  | [], d, tok, p => [(d, tok, p)]
  | (d', t', p') :: rest, d, tok, p =>
    if d' = d then (d', t' + tok, p' + p) :: rest
    else (d', t', p') :: addToBucket rest d tok p

/-- Insertion step of the embedding of Python `sorted` on bucket dates. -/
def insertByDate (x : Int × Int × ℚ) : List (Int × Int × ℚ) → List (Int × Int × ℚ)
  | [] => [x]
  | y :: ys => if x.1 ≤ y.1 then x :: y :: ys else y :: insertByDate x ys

/-- `sorted(daily_data.keys())`: stable sort of the buckets by date. -/
def sortByDate : List (Int × Int × ℚ) → List (Int × Int × ℚ)
  | [] => []
  | x :: xs => insertByDate x (sortByDate xs)

/-- Lines 134-152 of `usage_service.py`: shift each record by
`+timedelta(minutes=offset)`, bucket by the local calendar date
(`.date()` = floor division of the shifted instant by 86400), sum tokens and
price per bucket, and emit the buckets sorted ascending by date. -/
def dailySummariesOfRecords (allRecords : List (Int × Int × ℚ)) (tz : Int) :
    List DailySummary :=
  let buckets := allRecords.foldl
    (fun acc r => addToBucket acc ((r.1 + 60 * tz).fdiv 86400) r.2.1 r.2.2) []
  (sortByDate buckets).map fun b => ⟨b.1, b.2.1, b.2.2⟩

/-- The loop of lines 127-132 of `usage_service.py`: one `all_records` entry
per projected MongoDB record, priced as
`record['total_tokens'] * record['per_token_price']` — again an explicit
dict lookup on the projected record, failing at the first record. -/
def mongoDailyRows : List ProjectedRecord → Except PyError (List (Int × Int × ℚ))
  | [] => .ok []
  | r :: rs =>
    match r.get? "per_token_price" with
    | some (.num p) =>
        (mongoDailyRows rs).map fun rest =>
          (r.created_at, r.total_tokens, (r.total_tokens : ℚ) * p) :: rest
    | _ => .error (PyError.keyError "per_token_price")

/-- Lines 119-126: the MySQL part of `all_records` (stored `total_price`
taken as-is), followed by the MongoDB part. -/
def allRecordsOf (mysqlRecords : List LedgerRow) (mongoRecords : List ProjectedRecord) :
    Except PyError (List (Int × Int × ℚ)) := do
  let mongoRows ← mongoDailyRows mongoRecords
  Except.ok ((mysqlRecords.map fun r => (r.date, r.tokens_used, r.total_price)) ++ mongoRows)

/-- `UsageService.get_combined_daily_usage(db, year, month, timezone_offset_minutes)`. -/
def get_combined_daily_usage (tid : String) (ledger : List LedgerRow)
    (docs : List UsageEvent) (y m : Nat) (tz : Int) : Except PyError (List DailySummary) :=
  (allRecordsOf
      (ledgerRowsInWindow ledger tid (dailyUsageStart y m tz) (dailyUsageEnd y m tz))
      (get_data_for_date_range docs (dailyUsageStart y m tz) (dailyUsageEnd y m tz))).map
    fun allRecords => dailySummariesOfRecords allRecords tz

/-! ## Tenant registry (`app/services/tenant_service.py`) -/

/-- Exceptions raised by the tenant service layer
(`app/exceptions/tenant_exceptions.py`, SQLAlchemy's `MultipleResultsFound`,
and `fastapi.HTTPException`). -/
inductive ServiceExc where
  | duplicateTenantName : (message : String) → ServiceExc
  | duplicateTenantAlias : (message : String) → ServiceExc
  | multipleResultsFound : ServiceExc
  | httpExc : HTTPException → ServiceExc
deriving DecidableEq, Repr

/-- SQLAlchemy `Result.scalar_one_or_none()`: `none` on no row, the row when
unique, `MultipleResultsFound` otherwise. -/
def scalar_one_or_none (rows : List Tenant) : Except ServiceExc (Option Tenant) :=
  match rows with
  | [] => .ok none
  | [t] => .ok (some t)
  | _ => .error .multipleResultsFound

/-- `TenantService.check_duplicate(tenant_data, db)`: the name lookup runs
first and raises `DuplicateTenantNameException`; only then the alias lookup
runs and raises `DuplicateTenantAliasException`.  Both happen before any
insert. -/
def check_duplicate (db : List Tenant) (name al : String) : Except ServiceExc Unit := do
  let existing_tenant_name ← scalar_one_or_none (db.filter fun t => t.name == name)
  if existing_tenant_name.isSome then
    throw (.duplicateTenantName "Tenant with this name already exists")
  let existing_tenant_alias ← scalar_one_or_none (db.filter fun t => t.«alias» == al)
  if existing_tenant_alias.isSome then
    throw (.duplicateTenantAlias "Tenant with this alias already exists")
  return ()

/-- MySQL AUTO_INCREMENT for the `tenants` surrogate id. -/
def nextSurrogateId (db : List Tenant) : Nat :=
  (db.map (·.id)).foldl max 0 + 1

/-- The row `TenantService.register_tenant` leaves committed: surrogate id
from AUTO_INCREMENT, `tenant_id = f"tenant_{id}"` derived and written back
after the flush (the two-phase id assignment collapsed into one record). -/
def newTenant (db : List Tenant) (name al : String) : Tenant :=
  { id := nextSurrogateId db,
    tenant_id := "tenant_" ++ toString (nextSurrogateId db),
    logo := none, name := name, «alias» := al, active_state := true }

/-- `TenantService.register_tenant(tenant_data, db)`: duplicate check first,
then insert and commit; the returned pair is (new row, table after commit). -/
def register_tenant (db : List Tenant) (name al : String) :
    Except ServiceExc (Tenant × List Tenant) := do
  check_duplicate db name al
  return (newTenant db name al, db ++ [newTenant db name al])

/-- `TenantService.delete_tenant_internal(tenant_id, db)`.  The source wraps
`execute(delete ...)`, the `rowcount == 0` check and the commit in
`try: ... except Exception as e: rollback; raise HTTPException(500, ...)`.
`fastapi.HTTPException` is a subclass of `Exception`, so the inner
`HTTPException(404, "Tenant not found")` raised on `rowcount == 0` is caught
by that handler and replaced by the 500 (the 404's rendering ends up inside
the 500's detail string).  The embedding keeps that control flow; the result
is the table after the call. -/
def delete_tenant_internal (tid : String) (db : List Tenant) :
    Except HTTPException (List Tenant) :=
  if db.length - (db.filter fun t => !(t.tenant_id == tid)).length = 0 then
    .error ⟨500, .text "Failed to delete tenant: 404: Tenant not found"⟩
  else
    .ok (db.filter fun t => !(t.tenant_id == tid))

/-- Python truthiness of an optional query/string parameter. -/
def truthy : Option String → Bool
  | none => false
  | some s => !(s == "")

/-- `TenantService.get_tenant_by_alias_or_name(db, name, alias, tenant_id)`:
400 when no criterion is truthy; otherwise the WHERE clause is chosen by
`if name and alias / elif name / elif alias / elif tenant_id`, in that
order, then `scalar_one_or_none`. -/
def get_tenant_by_alias_or_name (db : List Tenant)
    (name al tenant_id : Option String) : Except ServiceExc (Option Tenant) :=
  if !truthy name && !truthy al && !truthy tenant_id then
    .error (.httpExc ⟨400, .text "You must provide either a name or alias to check."⟩)
  else
    scalar_one_or_none
      (if truthy name && truthy al then
        db.filter fun t => t.name == name.getD "" || t.«alias» == al.getD ""
      else if truthy name then
        db.filter fun t => t.name == name.getD ""
      else if truthy al then
        db.filter fun t => t.«alias» == al.getD ""
      else if truthy tenant_id then
        db.filter fun t => t.tenant_id == tenant_id.getD ""
      else
        db)

/-! ## Tenant endpoints (`src/main.py`) -/

/-- `POST /api/v1/tenants/` (`main.register_tenant`).  Inputs beyond the form
fields: whether a logo file was attached, and whether the S3 upload would
succeed.  Output: the HTTP result paired with the final `tenants` table.
Control flow from the source: service registration; on success, an attached
logo is uploaded — on upload failure the just-created row is deleted via
`delete_tenant_internal` and an `HTTPException(500, "Failed to upload logo
...")` is raised, which the outer `except Exception` rewraps into the
generic 500.  `DuplicateTenantNameException` maps to 400 with sub-code
`DUPLICATE_TENANT_NAME`, `DuplicateTenantAliasException` to 400 with
sub-code `DUPLICATE_TENANT_ALIAS`. -/
def register_tenant_route (db : List Tenant) (name al : String)
    (logoAttached uploadOk : Bool) : Except HTTPException Tenant × List Tenant :=
  match register_tenant db name al with
  | .error (.duplicateTenantName msg) =>
      (.error ⟨400, .coded "DUPLICATE_TENANT_NAME" msg⟩, db)
  | .error (.duplicateTenantAlias msg) =>
      (.error ⟨400, .coded "DUPLICATE_TENANT_ALIAS" msg⟩, db)
  | .error _ =>
      (.error ⟨500, .text "An unexpected error occurred"⟩, db)
  | .ok (t, db1) =>
      if logoAttached then
        if uploadOk then
          let t' := { t with logo := some ("tenant_logos/" ++ t.tenant_id) }
          (.ok t', db1.map fun x => if x.tenant_id == t.tenant_id then t' else x)
        else
          match delete_tenant_internal t.tenant_id db1 with
          | .ok db2 =>
              (.error ⟨500, .text "An unexpected error occurred: Failed to upload logo"⟩, db2)
          | .error _ =>
              (.error ⟨500, .text "An unexpected error occurred"⟩, db1)
      else
        (.ok t, db1)

/-- `DELETE /api/v1/tenants/{tenant_id}` (`main.delete_tenant`): delegates to
`delete_tenant_internal` unchanged; 204 with the shrunk table on success. -/
def delete_tenant_route (tid : String) (db : List Tenant) :
    Except HTTPException (List Tenant) :=
  delete_tenant_internal tid db

/-! ## App routing surface (`src/main.py` and the routers) -/

/-- Every route path mounted on the FastAPI `app`: the four
`include_router` calls of `main.py` (file-upload router under `/files`,
knowledge-base router, tenant-doc router, usage router) plus the endpoints
declared directly on `app`. -/
def appRoutePaths : List String :=
  [ -- app.include_router(upload_router, "/files")
    "/files/upload/",
    -- app.include_router(knowlege_base_router)
    "/api/v1/knowledge_base/{tenantId}/doc-names",
    "/api/v1/knowledge_base/{tenantId}/entries/{entryId}",
    "/api/v1/knowledge_base/{tenantId}/entries",
    -- app.include_router(tenant_doc_router)
    "/api/v1/tenant_docs/",
    "/api/v1/tenant_docs/{tenant_id}/{doc_name}",
    "/api/v1/tenant_docs/{tenant_id}",
    -- app.include_router(usage_router.router)
    "/api/v1/usage/monthly/summary/",
    "/api/v1/usage/monthly/daily/",
    "/api/v1/usage/",
    -- endpoints declared on app in main.py
    "/api/v1/tenants/",
    "/api/v1/tenants/{tenant_id}",
    "/api/v1/tenants/{tenant_id}/logo",
    "/api/v1/tenants/check",
    "/api/v1/tenants/find",
    "/api/v1/tenants/{tenant_id}/usage-alert",
    "/api/v1/tenants/{tenant_id}/billing",
    "/api/v1/tenants/{tenant_id}/billing-history",
    "/api/v1/tenants/{tenant_id}/billing-history/{billing_id}/invoice" ]

/-- The route declared by `app/routers/aggregation_router.py` (router path
`/monthly/` under `/api/v1/aggregation`); this router is never passed to
`app.include_router` in `main.py`. -/
def aggregationRouterPaths : List String :=
  ["/api/v1/aggregation/monthly/"]

/-- The method names defined in the body of `UsageService`
(`app/services/usage_service.py`). -/
def usageServiceMethods : List String :=
  ["__init__", "get_monthly_usage", "get_monthly_summary",
   "get_combined_daily_usage", "insert_usage_record"]

/-- `aggregation_router.get_real_time_monthly_aggregation(tenant_id, db)`.
The body calls `service.get_combined_monthly_aggregation(db)`; Python
resolves that attribute against the `UsageService` class body, and a miss
raises `AttributeError`, which the handler's `except Exception` turns into
`HTTPException(500, "Error aggregating usage data.")`.  The embedding keeps
the attribute lookup explicit; `dispatch` stands for whatever the method
would return if it existed. -/
def get_real_time_monthly_aggregation
    (dispatch : Unit → Except HTTPException MonthlyAggregation)
    (tenant_id : String) : Except HTTPException MonthlyAggregation :=
  if tenant_id == "" then
    .error ⟨400, .text "tenant_id is required"⟩
  else if usageServiceMethods.contains "get_combined_monthly_aggregation" then
    dispatch ()
  else
    .error ⟨500, .text "Error aggregating usage data."⟩

/-! ## `AIReply` construction (`app/schemas/ai_reply.py`) -/

/-- The value of the pydantic field default `created_at: datetime =
datetime.now(timezone.utc)`.  The right-hand side is evaluated once, when
the module is imported; `moduleLoadTime` is that single instant. -/
def aiReplyDefaultCreatedAt (moduleLoadTime : Int) : Int :=
  moduleLoadTime

/-- Constructing an `AIReply` at wall-clock instant `constructionTime`.
A caller may pass `created_at` explicitly; otherwise pydantic fills in the
field default — the instant captured at import, not `constructionTime`. -/
def mkAIReply (moduleLoadTime constructionTime : Int)
    (receiver user_query ai_reply : String) (tokens : List (String × TokenInfo))
    (total_tokens : Int) (tenant_id : String) (created_at? : Option Int) : UsageEvent :=
  { receiver := receiver, user_query := user_query, ai_reply := ai_reply,
    tokens := tokens, total_tokens := total_tokens, customer_feedback := none,
    tenant_id := tenant_id,
    created_at := created_at?.getD (aiReplyDefaultCreatedAt moduleLoadTime) }

/-- `AIReply.from_openai_completion`: builds the two-category token map and
calls the constructor without `created_at`. -/
def from_openai_completion (moduleLoadTime constructionTime : Int)
    (receiver user_query replyText : String)
    (prompt_tokens completion_tokens total_tokens : Int)
    (tenant_id : String) (input_token_price output_token_price : ℚ) : UsageEvent :=
  mkAIReply moduleLoadTime constructionTime receiver user_query replyText
    [("input", ⟨prompt_tokens, input_token_price⟩),
     ("output", ⟨completion_tokens, output_token_price⟩)]
    total_tokens tenant_id none

/-! ## Calendar lemmas -/

theorem isLeap_iff (y : Nat) :
    isLeap y = true ↔ (y % 4 = 0 ∧ (¬ y % 100 = 0 ∨ y % 400 = 0)) := by
  simp [isLeap]

theorem daysBeforeMonth_succ (y m : Nat) (h1 : 1 ≤ m) (h2 : m ≤ 11) :
    daysBeforeMonth y (m + 1) = daysBeforeMonth y m + daysInMonth y m := by
  interval_cases m <;>
    cases hL : isLeap y <;>
      simp [daysBeforeMonth, daysInMonth, daysBeforeMonthTable, daysInMonthTable, hL]

set_option maxHeartbeats 1000000 in
theorem daysBeforeYear_succ (y : Nat) (h : 1 ≤ y) :
    daysBeforeYear (y + 1) = daysBeforeYear y + (if isLeap y then 366 else 365) := by
  by_cases hL : isLeap y = true
  · rw [if_pos hL]
    have hP := (isLeap_iff y).mp hL
    unfold daysBeforeYear
    omega
  · rw [if_neg hL]
    have hP : ¬ (y % 4 = 0 ∧ (¬ y % 100 = 0 ∨ y % 400 = 0)) :=
      fun hc => hL ((isLeap_iff y).mpr hc)
    unfold daysBeforeYear
    omega

theorem daysInMonth_pos (y m : Nat) (h1 : 1 ≤ m) (h2 : m ≤ 12) :
    28 ≤ daysInMonth y m := by
  interval_cases m <;> cases hL : isLeap y <;>
    simp [daysInMonth, daysInMonthTable, hL]

theorem daysInMonth_dec (y : Nat) : daysInMonth y 12 = 31 := by
  simp [daysInMonth, daysInMonthTable]

/-- Start of the civil month following `(y, m)`: January of `y + 1` after
December, month `m + 1` of the same year otherwise. -/
def nextMonthStart (y m : Nat) : Int :=
  if m = 12 then datetimeUTC (y + 1) 1 1 else datetimeUTC y (m + 1) 1

/-- Midnight opening month number `n`, counting month `m` of year `y` as
number `12 * y + m - 1`. -/
def monthIdxStart (n : Nat) : Int :=
  datetimeUTC (n / 12) (n % 12 + 1) 1

theorem datetimeUTC_eq_monthIdxStart (y m : Nat) (h1 : 1 ≤ m) (h2 : m ≤ 12) :
    datetimeUTC y m 1 = monthIdxStart (12 * y + m - 1) := by
  have e1 : (12 * y + m - 1) / 12 = y := by omega
  have e2 : (12 * y + m - 1) % 12 + 1 = m := by omega
  rw [monthIdxStart, e1, e2]

theorem nextMonthStart_eq_monthIdxStart (y m : Nat) (h1 : 1 ≤ m) (h2 : m ≤ 12) :
    nextMonthStart y m = monthIdxStart (12 * y + m) := by
  by_cases hm : m = 12
  · subst hm
    have e1 : (12 * y + 12) / 12 = y + 1 := by omega
    have e2 : (12 * y + 12) % 12 + 1 = 1 := by omega
    rw [nextMonthStart, if_pos rfl, monthIdxStart, e1, e2]
  · have e1 : (12 * y + m) / 12 = y := by omega
    have e2 : (12 * y + m) % 12 + 1 = m + 1 := by omega
    rw [nextMonthStart, if_neg hm, monthIdxStart, e1, e2]

theorem monthIdxStart_lt_succ (n : Nat) (h : 12 ≤ n) :
    monthIdxStart n < monthIdxStart (n + 1) := by
  rcases Nat.lt_or_ge (n % 12) 11 with hm | hm
  · -- next month of the same year
    have e1 : (n + 1) / 12 = n / 12 := by omega
    have e2 : (n + 1) % 12 = n % 12 + 1 := by omega
    rw [monthIdxStart, monthIdxStart, e1, e2]
    have hstep := daysBeforeMonth_succ (n / 12) (n % 12 + 1) (by omega) (by omega)
    have hpos := daysInMonth_pos (n / 12) (n % 12 + 1) (by omega) (by omega)
    unfold datetimeUTC toOrdinal
    omega
  · -- December to January of the next year
    have hm' : n % 12 = 11 := by omega
    have e1 : (n + 1) / 12 = n / 12 + 1 := by omega
    have e2 : (n + 1) % 12 = 0 := by omega
    rw [monthIdxStart, monthIdxStart, e1, e2, hm']
    norm_num
    have hy : 1 ≤ n / 12 := by omega
    have h365 := daysBeforeYear_succ (n / 12) hy
    have h12 : daysBeforeMonth (n / 12) 12 ≤ 335 := by
      cases hL : isLeap (n / 12) <;> simp [daysBeforeMonth, daysBeforeMonthTable, hL]
    have h1' : daysBeforeMonth (n / 12 + 1) 1 = 0 := by
      simp [daysBeforeMonth, daysBeforeMonthTable]
    have h365' : daysBeforeYear (n / 12) + 365 ≤ daysBeforeYear (n / 12 + 1) := by
      cases hL : isLeap (n / 12) <;> rw [hL] at h365 <;> simp at h365 <;> omega
    unfold datetimeUTC toOrdinal
    omega

theorem monthIdxStart_mono (a b : Nat) (ha : 12 ≤ a) (hab : a ≤ b) :
    monthIdxStart a ≤ monthIdxStart b := by
  induction b with
  | zero => exact absurd hab (by omega)
  | succ b ih =>
      rcases Nat.lt_or_ge a (b + 1) with hlt | hge
      · have hab' : a ≤ b := by omega
        exact le_trans (ih hab') (le_of_lt (monthIdxStart_lt_succ b (by omega)))
      · have heq : a = b + 1 := by omega
        subst heq
        exact le_rfl

/-! ## Window lemmas -/

theorem monthlySummaryEnd_eq_nextMonthStart (y m : Nat) (tz : Int) :
    monthlySummaryEnd y m tz = nextMonthStart y m - 1 - 60 * tz := by
  unfold monthlySummaryEnd nextMonthStart
  split <;> ring

theorem dailyUsage_window_eq_monthly_window (y m : Nat) (tz : Int) :
    dailyUsageStart y m tz = monthlySummaryStart y m tz ∧
    dailyUsageEnd y m tz = monthlySummaryEnd y m tz :=
  ⟨rfl, rfl⟩

theorem daysBeforeMonth_12 (y : Nat) :
    daysBeforeMonth y 12 = 334 + (if isLeap y then 1 else 0) := by
  cases hL : isLeap y <;> simp [daysBeforeMonth, daysBeforeMonthTable, hL]

theorem daysBeforeMonth_1 (y : Nat) : daysBeforeMonth y 1 = 0 := by
  simp [daysBeforeMonth, daysBeforeMonthTable]

/-- An event instant in the final second of `(y, m)` — at or after one second
before the start of the next civil month and before that start — satisfies
no month window of the event-store range query: for every valid `(y', m')`
it fails `start ≤ t < end` with `start = monthlySummaryStart y' m' 0` and
`end = monthlySummaryEnd y' m' 0`. -/
theorem final_second_not_in_any_window (y m y' m' : Nat) (t : Int)
    (hy : 1 ≤ y) (h1 : 1 ≤ m) (h2 : m ≤ 12)
    (hy' : 1 ≤ y') (h1' : 1 ≤ m') (h2' : m' ≤ 12)
    (ht1 : nextMonthStart y m - 1 ≤ t) (ht2 : t < nextMonthStart y m) :
    ¬ (monthlySummaryStart y' m' 0 ≤ t ∧ t < monthlySummaryEnd y' m' 0) := by
  have hs : monthlySummaryStart y' m' 0 = monthIdxStart (12 * y' + m' - 1) := by
    rw [monthlySummaryStart, datetimeUTC_eq_monthIdxStart y' m' h1' h2']
    ring
  have he : monthlySummaryEnd y' m' 0 = monthIdxStart (12 * y' + m') - 1 := by
    rw [monthlySummaryEnd_eq_nextMonthStart, nextMonthStart_eq_monthIdxStart y' m' h1' h2']
    ring
  have hn : nextMonthStart y m = monthIdxStart (12 * y + m) :=
    nextMonthStart_eq_monthIdxStart y m h1 h2
  rw [hs, he]
  rw [hn] at ht1 ht2
  rintro ⟨ha, hb⟩
  rcases le_or_lt (12 * y' + m') (12 * y + m) with hc | hc
  · have hmono := monthIdxStart_mono (12 * y' + m') (12 * y + m) (by omega) hc
    omega
  · have hmono := monthIdxStart_mono (12 * y + m) (12 * y' + m' - 1) (by omega) (by omega)
    omega

/-- Dropping from the collection an event outside `[s, e)` does not change
the result of the range query. -/
theorem get_data_for_date_range_drop (docs : List UsageEvent) (ev : UsageEvent)
    (s e : Int) (h : ¬ (s ≤ ev.created_at ∧ ev.created_at < e)) :
    get_data_for_date_range (ev :: docs) s e = get_data_for_date_range docs s e := by
  unfold get_data_for_date_range
  have hc : (decide (s ≤ ev.created_at) && decide (ev.created_at < e)) = false := by
    by_cases hA : s ≤ ev.created_at <;> by_cases hB : ev.created_at < e <;> simp_all
  simp [List.filter_cons, hc]

/-- C10: with timezone offset 0, the summary window end is the first instant
of the next month minus one second, and the event-store query is strict at
that end; an event created in the final second of month `(y, m)` is
therefore invisible to `get_monthly_summary` and `get_combined_daily_usage`
for every month: prepending it to the tenant's collection leaves every
result unchanged. -/
theorem c10_final_second_never_counted (tid : String) (ledger : List LedgerRow)
    (docs : List UsageEvent) (y m : Nat) (ev : UsageEvent)
    (hy : 1 ≤ y) (h1 : 1 ≤ m) (h2 : m ≤ 12)
    (he1 : nextMonthStart y m - 1 ≤ ev.created_at)
    (he2 : ev.created_at < nextMonthStart y m) :
    monthlySummaryEnd y m 0 = nextMonthStart y m - 1 ∧
    ∀ y' m', 1 ≤ y' → 1 ≤ m' → m' ≤ 12 →
      get_monthly_summary tid ledger (ev :: docs) y' m' 0 =
        get_monthly_summary tid ledger docs y' m' 0 ∧
      get_combined_daily_usage tid ledger (ev :: docs) y' m' 0 =
        get_combined_daily_usage tid ledger docs y' m' 0 := by
  constructor
  · rw [monthlySummaryEnd_eq_nextMonthStart]
    ring
  · intro y' m' hy' h1' h2'
    have hnot := final_second_not_in_any_window y m y' m' ev.created_at
      hy h1 h2 hy' h1' h2' he1 he2
    have hdropM : get_data_for_date_range (ev :: docs)
        (monthlySummaryStart y' m' 0) (monthlySummaryEnd y' m' 0) =
        get_data_for_date_range docs
        (monthlySummaryStart y' m' 0) (monthlySummaryEnd y' m' 0) :=
      get_data_for_date_range_drop docs ev _ _ hnot
    have hdropD : get_data_for_date_range (ev :: docs)
        (dailyUsageStart y' m' 0) (dailyUsageEnd y' m' 0) =
        get_data_for_date_range docs
        (dailyUsageStart y' m' 0) (dailyUsageEnd y' m' 0) := by
      rw [(dailyUsage_window_eq_monthly_window y' m' 0).1,
          (dailyUsage_window_eq_monthly_window y' m' 0).2]
      exact hdropM
    constructor
    · unfold get_monthly_summary
      rw [hdropM]
    · unfold get_combined_daily_usage
      rw [hdropD]

/-- C5: both the monthly-summary path and the daily-series path compute the
window end with a month-plus-one-with-year-carry (January of `y + 1` for
December, `m + 1` of the same year otherwise) and subtract one second for
an inclusive end; the two paths agree, and the resulting window spans
exactly the days of the month. -/
theorem c5_month_rollover (y m : Nat) (tz : Int) (hy : 1 ≤ y) (h1 : 1 ≤ m) (h2 : m ≤ 12) :
    monthlySummaryEnd y m tz = dailyUsageEnd y m tz ∧
    (m = 12 → monthlySummaryEnd y m tz = datetimeUTC (y + 1) 1 1 - 1 - 60 * tz) ∧
    (m < 12 → monthlySummaryEnd y m tz = datetimeUTC y (m + 1) 1 - 1 - 60 * tz) ∧
    monthlySummaryEnd y m tz - monthlySummaryStart y m tz + 1 =
      86400 * (daysInMonth y m : Int) := by
  refine ⟨rfl, ?_, ?_, ?_⟩
  · intro hm
    unfold monthlySummaryEnd
    rw [if_pos hm]
  · intro hm
    unfold monthlySummaryEnd
    rw [if_neg (by omega)]
  · by_cases hm : m = 12
    · subst hm
      have h365 := daysBeforeYear_succ y hy
      have hJan := daysBeforeMonth_1 (y + 1)
      have hDec := daysBeforeMonth_12 y
      rw [daysInMonth_dec]
      unfold monthlySummaryEnd monthlySummaryStart
      rw [if_pos rfl]
      unfold datetimeUTC toOrdinal
      by_cases hL : isLeap y = true
      · rw [if_pos hL] at h365 hDec
        omega
      · rw [if_neg hL] at h365 hDec
        omega
    · have hstep := daysBeforeMonth_succ y m h1 (by omega)
      unfold monthlySummaryEnd monthlySummaryStart
      rw [if_neg hm]
      unfold datetimeUTC toOrdinal
      omega

/-- Witness for `c5_month_rollover` at the December 2024 rollover with
timezone offset 0. -/
theorem c5_month_rollover_witness :
    monthlySummaryEnd 2024 12 0 = dailyUsageEnd 2024 12 0 ∧
    monthlySummaryEnd 2024 12 0 = datetimeUTC 2025 1 1 - 1 - 60 * 0 ∧
    monthlySummaryEnd 2024 12 0 - monthlySummaryStart 2024 12 0 + 1 =
      86400 * (daysInMonth 2024 12 : Int) := by
  have h := c5_month_rollover 2024 12 0 (by decide) (by decide) (by decide)
  exact ⟨h.1, h.2.1 rfl, h.2.2.2⟩

/-- `summaryOfRecords` over an empty ledger row set and an empty record list:
SQL NULL coerced by `or 0` / `or 0.0`, Mongo sums over nothing. -/
theorem summaryOfRecords_nil (tid : String) (y m : Nat) :
    summaryOfRecords tid y m [] [] = .ok ⟨tid, y, m, 0, 0⟩ := by
  simp [summaryOfRecords, sqlSumTokens, sqlSumPrice, pricesOfRecords, Bind.bind, Except.bind]

/-- C6: on a tenant-month window containing no data, the ledger aggregate and
the event-store aggregate each come back as zeros rather than nulls or
errors, so the combined monthly summary is exactly zero tokens and zero
price, and `aggregate_monthly_data` returns `(0, 0.0)`. -/
theorem c6_empty_window_zero (tid : String) (ledger : List LedgerRow)
    (docs : List UsageEvent) (y m : Nat) (h1 : 1 ≤ m) (h2 : m ≤ 12)
    (hL : ledgerRowsInWindow ledger tid (monthlySummaryStart y m 0) (monthlySummaryEnd y m 0) = [])
    (hD : docs.filter (fun d =>
        decide (datetimeUTC y m 1 ≤ d.created_at) &&
        decide (d.created_at < if m = 12 then datetimeUTC (y + 1) 1 1 else datetimeUTC y (m + 1) 1)) = []) :
    get_monthly_summary tid ledger docs y m 0 = .ok ⟨tid, y, m, 0, 0⟩ ∧
    aggregate_monthly_data docs y m = (0, 0) := by
  have hD' : get_data_for_date_range docs (monthlySummaryStart y m 0) (monthlySummaryEnd y m 0) = [] := by
    unfold get_data_for_date_range
    rw [List.filter_eq_nil_iff.mpr, List.map_nil]
    intro d hd
    have h := List.filter_eq_nil_iff.mp hD d hd
    simp only [Bool.and_eq_true, decide_eq_true_eq, not_and] at h ⊢
    intro hs hlt
    by_cases hm : m = 12
    · rw [if_pos hm] at h
      unfold monthlySummaryStart at hs
      unfold monthlySummaryEnd at hlt
      rw [if_pos hm] at hlt
      exact h (by omega) (by omega)
    · rw [if_neg hm] at h
      unfold monthlySummaryStart at hs
      unfold monthlySummaryEnd at hlt
      rw [if_neg hm] at hlt
      exact h (by omega) (by omega)
  constructor
  · unfold get_monthly_summary
    rw [hL, hD']
    exact summaryOfRecords_nil tid y m
  · unfold aggregate_monthly_data
    rw [hD]
    rfl

/-- Witness for `c6_empty_window_zero`: empty stores, April 2024. -/
theorem c6_empty_window_zero_witness :
    get_monthly_summary "tenant_7" [] [] 2024 4 0 = .ok ⟨"tenant_7", 2024, 4, 0, 0⟩ ∧
    aggregate_monthly_data [] 2024 4 = (0, 0) :=
  c6_empty_window_zero "tenant_7" [] [] 2024 4 (by decide) (by decide) rfl rfl

/-! ## Claim theorems: event pricing, endpoints, tenant registry -/

/-- An event mixing two token categories with different unit prices
(April 2024), as in the spec's event-pricing example scaled to
`{input: 100 @ 0.00001, output: 50 @ 0.00003}`. -/
def evC1 : UsageEvent :=
  { receiver := "customer-1", user_query := "q", ai_reply := "a",
    tokens := [("input", ⟨100, 0.00001⟩), ("output", ⟨50, 0.00003⟩)],
    total_tokens := 150, customer_feedback := none, tenant_id := "tenant_7",
    created_at := datetimeUTC 2024 4 15 }

/-- C1: `get_monthly_summary` and `get_combined_daily_usage` do NOT price an
event-store record per token category.  Both read
`record['per_token_price']`, a key absent from the projection
`{created_at, total_tokens, tokens}` returned by
`get_data_for_date_range`, so on any window containing an event both
raise `KeyError` — while the per-category formula the pipelines of
`mongodb_service.py` compute (`documentTotalPrice`) yields
`100 * 0.00001 + 50 * 0.00003 = 0.0025` for the same event.  (Prices are
exact rationals here; the Python floats round, the formula is the claim.) -/
theorem c1_per_category_pricing_not_used :
    get_monthly_summary "tenant_7" [] [evC1] 2024 4 0 =
      .error (.keyError "per_token_price") ∧
    get_combined_daily_usage "tenant_7" [] [evC1] 2024 4 0 =
      .error (.keyError "per_token_price") ∧
    documentTotalPrice evC1.tokens = 0.0025 := by
  refine ⟨rfl, rfl, ?_⟩
  norm_num [documentTotalPrice, evC1]

/-- C2: the aggregation router's only route is not among the routes mounted
on the app, and even its handler, called directly, answers HTTP 500 for
every nonempty tenant id, whatever the missing service method would have
returned. -/
theorem c2_aggregation_route_dead
    (dispatch : Unit → Except HTTPException MonthlyAggregation)
    (tid : String) (h : tid ≠ "") :
    (∀ p ∈ aggregationRouterPaths, p ∉ appRoutePaths) ∧
    get_real_time_monthly_aggregation dispatch tid =
      .error ⟨500, .text "Error aggregating usage data."⟩ := by
  constructor
  · decide
  · unfold get_real_time_monthly_aggregation
    have h1 : (tid == "") = false := beq_eq_false_iff_ne.mpr h
    have h2 : usageServiceMethods.contains "get_combined_monthly_aggregation" = false := by
      decide
    rw [h1, h2]
    rfl

/-- Witness for `c2_aggregation_route_dead` at `tenant_id = "tenant_1"`. -/
theorem c2_aggregation_route_dead_witness :
    get_real_time_monthly_aggregation
        (fun _ => .error ⟨400, .text "unused"⟩) "tenant_1" =
      .error ⟨500, .text "Error aggregating usage data."⟩ :=
  (c2_aggregation_route_dead (fun _ => .error ⟨400, .text "unused"⟩) "tenant_1"
    (by decide)).2

/-- C3: when no row carries the given public identifier (zero rows affected),
`delete_tenant_internal` does not surface the 404 it raises: the
surrounding `except Exception` rewraps it, and the caller sees HTTP 500. -/
theorem c3_delete_zero_rows_gives_500 (tid : String) (db : List Tenant)
    (h : db.filter (fun t => t.tenant_id == tid) = []) :
    delete_tenant_internal tid db =
      .error ⟨500, .text "Failed to delete tenant: 404: Tenant not found"⟩ := by
  have hall : ∀ t ∈ db, (t.tenant_id == tid) = false := by
    intro t ht
    have := List.filter_eq_nil_iff.mp h t ht
    simpa using this
  have hrem : (db.filter fun t => !(t.tenant_id == tid)) = db :=
    List.filter_eq_self.mpr fun t ht => by simp [hall t ht]
  unfold delete_tenant_internal
  rw [hrem]
  simp

/-- Witness for `c3_delete_zero_rows_gives_500`: an empty `tenants` table. -/
theorem c3_delete_zero_rows_gives_500_witness :
    delete_tenant_internal "tenant_42" [] =
      .error ⟨500, .text "Failed to delete tenant: 404: Tenant not found"⟩ :=
  c3_delete_zero_rows_gives_500 "tenant_42" [] rfl

/-- A first concrete tenant row for the registry theorems. -/
def tenantA : Tenant :=
  { id := 1, tenant_id := "tenant_1", logo := none, name := "alpha",
    «alias» := "al", active_state := true }

/-- A second concrete tenant row for the registry theorems. -/
def tenantB : Tenant :=
  { id := 2, tenant_id := "tenant_2", logo := none, name := "beta",
    «alias» := "be", active_state := true }

/-- C4 counterexample: with both a name and an identifier supplied, `find`
returns the tenant matched by name, not the one matched by the exact
identifier — the identifier does not take precedence. -/
theorem c4_identifier_does_not_take_precedence :
    get_tenant_by_alias_or_name [tenantA, tenantB] (some "alpha") none (some "tenant_2") =
      .ok (some tenantA) ∧
    tenantA.tenant_id ≠ "tenant_2" ∧ tenantB.tenant_id = "tenant_2" := by
  exact ⟨rfl, by decide, rfl⟩

/-- C4 amended: in `get_tenant_by_alias_or_name` the name/alias branches come
first, so whenever a name or an alias is supplied the result is as if no
identifier had been passed (name and alias OR'ed between themselves); the
exact identifier lookup is used only when neither name nor alias is
supplied. -/
theorem c4_name_alias_shadow_identifier (db : List Tenant)
    (name al tid : Option String) :
    ((truthy name || truthy al) = true →
      get_tenant_by_alias_or_name db name al tid =
        get_tenant_by_alias_or_name db name al none) ∧
    (truthy name = false → truthy al = false → truthy tid = true →
      get_tenant_by_alias_or_name db name al tid =
        scalar_one_or_none (db.filter fun t => t.tenant_id == tid.getD "")) := by
  constructor
  · intro h
    unfold get_tenant_by_alias_or_name
    cases hn : truthy name <;> cases ha : truthy al <;> simp_all [truthy]
  · intro hn ha ht
    unfold get_tenant_by_alias_or_name
    rw [hn, ha, ht]
    simp

/-- Witness for `c4_name_alias_shadow_identifier`: the supplied identifier
`tenant_2` is ignored because a name is present. -/
theorem c4_name_alias_shadow_identifier_witness :
    get_tenant_by_alias_or_name [tenantA, tenantB] (some "alpha") none (some "tenant_2") =
      get_tenant_by_alias_or_name [tenantA, tenantB] (some "alpha") none none :=
  (c4_name_alias_shadow_identifier [tenantA, tenantB]
    (some "alpha") none (some "tenant_2")).1 (by decide)

/-- C7: registering a name that already exists (with a fresh alias) fails in
`check_duplicate`, before any insert, with the duplicate-name kind; the
route surfaces it as HTTP 400 with sub-code `DUPLICATE_TENANT_NAME`, and
the table is unchanged. -/
theorem c7_duplicate_name_kind (db : List Tenant) (t0 : Tenant) (name al : String)
    (hname : db.filter (fun t => t.name == name) = [t0])
    (halias : db.filter (fun t => t.«alias» == al) = []) :
    check_duplicate db name al =
      .error (.duplicateTenantName "Tenant with this name already exists") ∧
    register_tenant db name al =
      .error (.duplicateTenantName "Tenant with this name already exists") ∧
    (register_tenant_route db name al false true).1 =
      .error ⟨400, .coded "DUPLICATE_TENANT_NAME" "Tenant with this name already exists"⟩ ∧
    (register_tenant_route db name al false true).2 = db := by
  have h1 : check_duplicate db name al =
      .error (.duplicateTenantName "Tenant with this name already exists") := by
    unfold check_duplicate
    rw [hname]
    rfl
  have h2 : register_tenant db name al =
      .error (.duplicateTenantName "Tenant with this name already exists") := by
    unfold register_tenant
    rw [h1]
    rfl
  refine ⟨h1, h2, ?_, ?_⟩ <;> unfold register_tenant_route <;> rw [h2]

/-- Witness for `c7_duplicate_name_kind`: re-registering the name `alpha`
with the fresh alias `zz`. -/
theorem c7_duplicate_name_kind_witness :
    check_duplicate [tenantA] "alpha" "zz" =
      .error (.duplicateTenantName "Tenant with this name already exists") ∧
    register_tenant [tenantA] "alpha" "zz" =
      .error (.duplicateTenantName "Tenant with this name already exists") ∧
    (register_tenant_route [tenantA] "alpha" "zz" false true).1 =
      .error ⟨400, .coded "DUPLICATE_TENANT_NAME" "Tenant with this name already exists"⟩ ∧
    (register_tenant_route [tenantA] "alpha" "zz" false true).2 = [tenantA] :=
  c7_duplicate_name_kind [tenantA] tenantA "alpha" "zz" rfl rfl

/-- C8: if registration succeeded but the logo upload fails, the endpoint
deletes the just-created row (compensating action) and reports failure:
the final table equals the original one and the result is an error. -/
theorem c8_logo_failure_compensates (db : List Tenant) (name al : String)
    (hdup : check_duplicate db name al = .ok ())
    (hfresh : ∀ t ∈ db, (t.tenant_id == (newTenant db name al).tenant_id) = false) :
    (register_tenant_route db name al true false).1 =
      .error ⟨500, .text "An unexpected error occurred: Failed to upload logo"⟩ ∧
    (register_tenant_route db name al true false).2 = db := by
  have hreg : register_tenant db name al =
      .ok (newTenant db name al, db ++ [newTenant db name al]) := by
    unfold register_tenant
    rw [hdup]
    rfl
  have hfil : ((db ++ [newTenant db name al]).filter
      fun t => !(t.tenant_id == (newTenant db name al).tenant_id)) = db := by
    rw [List.filter_append]
    have hl : (db.filter fun t => !(t.tenant_id == (newTenant db name al).tenant_id)) = db :=
      List.filter_eq_self.mpr fun t ht => by simp [hfresh t ht]
    have hr : ([newTenant db name al].filter
        fun t => !(t.tenant_id == (newTenant db name al).tenant_id)) = [] := by
      simp
    rw [hl, hr, List.append_nil]
  have hdel : delete_tenant_internal (newTenant db name al).tenant_id
      (db ++ [newTenant db name al]) = .ok db := by
    unfold delete_tenant_internal
    rw [hfil]
    rw [if_neg (by simp)]
  have hroute : register_tenant_route db name al true false =
      (.error ⟨500, .text "An unexpected error occurred: Failed to upload logo"⟩, db) := by
    unfold register_tenant_route
    rw [hreg]
    simp only []
    rw [hdel]
    simp
  rw [hroute]
  exact ⟨rfl, rfl⟩

/-- Witness for `c8_logo_failure_compensates`: registering `acme` into an
empty table with a logo whose upload fails leaves the table empty. -/
theorem c8_logo_failure_compensates_witness :
    (register_tenant_route [] "acme" "ac" true false).1 =
      .error ⟨500, .text "An unexpected error occurred: Failed to upload logo"⟩ ∧
    (register_tenant_route [] "acme" "ac" true false).2 = [] :=
  c8_logo_failure_compensates [] "acme" "ac" rfl (by simp)

/-- C9: the pydantic default for `AIReply.created_at` is the single instant
captured at module import.  Two events constructed without an explicit
`created_at`, at any two wall-clock instants, carry the same timestamp —
the import-time one — and `from_openai_completion` always constructs
without `created_at`. -/
theorem c9_created_at_is_import_time (load t1 t2 : Int)
    (r1 q1 a1 r2 q2 a2 : String) (tk1 tk2 : List (String × TokenInfo))
    (tt1 tt2 : Int) (tid1 tid2 : String) :
    (mkAIReply load t1 r1 q1 a1 tk1 tt1 tid1 none).created_at =
      (mkAIReply load t2 r2 q2 a2 tk2 tt2 tid2 none).created_at ∧
    (mkAIReply load t1 r1 q1 a1 tk1 tt1 tid1 none).created_at = load ∧
    (from_openai_completion load t1 r1 q1 a1 tt1 tt2 (tt1 + tt2) tid1 1 2).created_at = load :=
  ⟨rfl, rfl, rfl⟩

/-- An event created in the last second of April 2024. -/
def evC10 : UsageEvent :=
  { receiver := "customer-1", user_query := "q", ai_reply := "a",
    tokens := [("input", ⟨10, 0.00001⟩)], total_tokens := 10,
    customer_feedback := none, tenant_id := "tenant_7",
    created_at := datetimeUTC 2024 5 1 - 1 }

/-- Witness for `c10_final_second_never_counted`: the April-2024 results do
not change when the collection gains an event from April's final second. -/
theorem c10_final_second_never_counted_witness :
    get_monthly_summary "tenant_7" [] [evC10] 2024 4 0 =
      get_monthly_summary "tenant_7" [] [] 2024 4 0 ∧
    get_combined_daily_usage "tenant_7" [] [evC10] 2024 4 0 =
      get_combined_daily_usage "tenant_7" [] [] 2024 4 0 :=
  (c10_final_second_never_counted "tenant_7" [] [] 2024 4 evC10
    (by decide) (by decide) (by decide) (by decide) (by decide)).2
    2024 4 (by decide) (by decide) (by decide)
